import Mathlib

/-!
Shallow embedding of the mcptest core (assertion evaluator, test runner,
config validator) translated from the TypeScript sources
`src/assertions.ts`, `src/runner.ts` and `src/config.ts`.

JavaScript machine details are modelled as follows: `undefined`-able fields
become `Option`; a thrown exception becomes `Except.error`; external library
calls (`new RegExp`, `JSON.parse`, Ajv) are parameters of the embedding
(`JsEnv`), each returning `Except`/`Option` so that a throwing call site is
represented faithfully.
-/

/-- Dynamically typed values as produced by the YAML parser
(the TypeScript `unknown` that `validateConfig` receives). -/
inductive JsValue where
  | null
  | bool (b : Bool)
  | num (n : Int)
  | str (s : String)
  | arr (xs : List JsValue)
  | obj (fields : List (String × JsValue))

/-- Property access `v[k]` on a JS value: `none` models `undefined`
(non-objects and missing keys). -/
def jsGet : JsValue → String → Option JsValue
  | .obj fields, k => (fields.find? (fun f => f.1 == k)).map (fun f => f.2)
  | _, _ => none

/-- Property access through a possibly-undefined receiver (the receiver was
already checked truthy at each use site in the source, so `none` receivers
only occur where the source would have crashed earlier; we return
`undefined`). -/
def jsGetOpt (v : Option JsValue) (k : String) : Option JsValue :=
  v.bind (fun x => jsGet x k)

/-- JS truthiness of a possibly-undefined value. -/
def jsTruthyV : Option JsValue → Bool
  | none => false
  | some .null => false
  | some (.bool b) => b
  | some (.num n) => !(n == 0)
  | some (.str s) => !(s == "")
  | some (.arr _) => true
  | some (.obj _) => true

/-- JS `typeof`. -/
def typeofOpt : Option JsValue → String
  | none => "undefined"
  | some .null => "object"
  | some (.bool _) => "boolean"
  | some (.num _) => "number"
  | some (.str _) => "string"
  | some (.arr _) => "object"
  | some (.obj _) => "object"

/-- JS `Array.isArray`. -/
def isArrayOpt : Option JsValue → Bool
  | some (.arr _) => true
  | _ => false

mutual
/-- JS string coercion `String(v)` (template-literal interpolation); the
display of values nested inside arrays is simplified to the top-level
coercion, which agrees on all primitives. -/
def jsStringV : JsValue → String
  | .null => "null"
  | .bool b => if b then "true" else "false"
  | .num n => toString n
  | .str s => s
  | .arr xs => jsStringList xs
  | .obj _ => "[object Object]"

def jsStringList : List JsValue → String
  | [] => ""
  | [x] => jsStringV x
  | x :: y :: xs => jsStringV x ++ "," ++ jsStringList (y :: xs)
end

/-- JS string coercion of a possibly-undefined value, as used when an
optional field is interpolated into a template literal. -/
def jsString : Option JsValue → String
  | none => "undefined"
  | some v => jsStringV v

/-- `${o}` for an optional number field. -/
def jsNumOpt : Option Int → String
  | some n => toString n
  | none => "undefined"

/-- `${o}` for an optional string field. -/
def jsStrOpt : Option String → String
  | some s => s
  | none => "undefined"

/-- Substring test on character lists (helper for `String.prototype.includes`). -/
def hasSubList (s sub : List Char) : Bool :=
  match s, sub with
  | _, [] => true
  | [], _ :: _ => false
  | c :: rest, sub => List.isPrefixOf sub (c :: rest) || hasSubList rest sub

/-- JS `s.includes(sub)`. -/
def jsIncludes (s sub : String) : Bool :=
  hasSubList s.toList sub.toList

-- ### Data model (src/client.ts, src/config.ts)

/-- `McpTool` from src/client.ts. -/
structure McpTool where
  name : String
  description : Option String := none
  inputSchema : Option JsValue := none

/-- `McpResource` from src/client.ts. -/
structure McpResource where
  uri : String
  name : Option String := none
  description : Option String := none
  mimeType : Option String := none

/-- `McpPrompt` from src/client.ts. -/
structure McpPrompt where
  name : String
  description : Option String := none

/-- One content block of a tool-call result (`content` array element). -/
structure ContentBlock where
  type : String
  text : Option String := none

/-- `ToolCallResult` from src/client.ts. -/
structure ToolCallResult where
  content : List ContentBlock
  isError : Option Bool := none

/-- `Assertion` from src/config.ts: a type tag plus optional kind-specific
fields. -/
structure Assertion where
  type : String
  name : Option String := none
  value : Option String := none
  pattern : Option String := none
  min : Option Int := none
  max : Option Int := none
  exact : Option Int := none
  schema : Option JsValue := none
  ms : Option Int := none

/-- `AssertionResult` from src/assertions.ts. -/
structure AssertionResult where
  passed : Bool
  message : String
  assertion : Assertion

/-- `AssertionContext` from src/assertions.ts. -/
structure AssertionContext where
  tools : Option (List McpTool) := none
  resources : Option (List McpResource) := none
  prompts : Option (List McpPrompt) := none
  toolResult : Option ToolCallResult := none
  elapsedMs : Option Int := none

/-- External JavaScript facilities the evaluators call into: `new RegExp`
(compilation may throw `SyntaxError`), `JSON.parse` (its throw is caught at
every call site, so `Option` suffices), and Ajv schema compilation
(`ajv.compile` may throw; a compiled validator returns a boolean together
with the `ajv.errorsText(...)` rendering of its errors). -/
structure JsEnv where
  regexCompile : String → Except String (String → Bool)
  jsonParse : String → Option JsValue
  ajvCompile : Option JsValue → Except String (JsValue → Bool × String)

-- ### Assertion evaluator (src/assertions.ts)

/-- Truthiness of `c.text` in the `getOutputText` filter. -/
def truthyText (c : ContentBlock) : Bool :=
  match c.text with
  | some s => !(s == "")
  | none => false

/-- `getOutputText`: newline-join of the text of every content block with
`type === "text"` and truthy `text`. -/
def getOutputText (result : ToolCallResult) : String :=
  String.intercalate "\n"
    ((result.content.filter (fun c => c.type == "text" && truthyText c)).map
      (fun c => c.text.getD ""))

/-- `checkCount` from src/assertions.ts: shared counting rule of the three
`*_count` assertion kinds. -/
def checkCount (actual : Int) (label : String) (assertion : Assertion) :
    AssertionResult :=
  match assertion.exact with
  | some e =>
    { passed := actual == e
      message :=
        if actual == e then
          label ++ " count is exactly " ++ toString e
        else
          "Expected exactly " ++ toString e ++ " " ++ label ++ ", got " ++
            toString actual
      assertion := assertion }
  | none =>
    let minOk := match assertion.min with
      | none => true
      | some m => decide (actual ≥ m)
    let maxOk := match assertion.max with
      | none => true
      | some m => decide (actual ≤ m)
    if minOk && maxOk then
      let parts : List String :=
        (match assertion.min with
          | some m => [">= " ++ toString m]
          | none => []) ++
        (match assertion.max with
          | some m => ["<= " ++ toString m]
          | none => [])
      let joined := String.intercalate " and " parts
      { passed := true
        message := label ++ " count is " ++ toString actual ++ " (" ++
          (if joined == "" then "any" else joined) ++ ")"
        assertion := assertion }
    else
      let parts : List String :=
        (if minOk then [] else ["expected >= " ++ jsNumOpt assertion.min]) ++
        (if maxOk then [] else ["expected <= " ++ jsNumOpt assertion.max])
      { passed := false
        message := label ++ " count is " ++ toString actual ++ ", but " ++
          String.intercalate " and " parts
        assertion := assertion }

namespace evaluators

/-- `success` evaluator. -/
def success (_env : JsEnv) (assertion : Assertion) (ctx : AssertionContext) :
    Except String AssertionResult :=
  let passed := match ctx.toolResult with
    | none => false
    | some tr => !(tr.isError.getD false)
  .ok { passed := passed
        message :=
          if passed then "Tool call succeeded" else "Expected success but got error"
        assertion := assertion }

/-- `error` evaluator. -/
def error (_env : JsEnv) (assertion : Assertion) (ctx : AssertionContext) :
    Except String AssertionResult :=
  let passed := match ctx.toolResult with
    | none => false
    | some tr => tr.isError == some true
  .ok { passed := passed
        message :=
          if passed then "Tool call returned error as expected"
          else "Expected error but call succeeded"
        assertion := assertion }

/-- `error_contains` evaluator. -/
def error_contains (_env : JsEnv) (assertion : Assertion)
    (ctx : AssertionContext) : Except String AssertionResult :=
  match ctx.toolResult with
  | none =>
    .ok { passed := false, message := "Expected error but call succeeded"
          assertion := assertion }
  | some tr =>
    if !(tr.isError.getD false) then
      .ok { passed := false, message := "Expected error but call succeeded"
            assertion := assertion }
    else
      let text := getOutputText tr
      let contains := jsIncludes text (jsStrOpt assertion.value)
      .ok { passed := contains
            message :=
              if contains then
                "Error contains \"" ++ jsStrOpt assertion.value ++ "\""
              else
                "Error does not contain \"" ++ jsStrOpt assertion.value ++
                  "\". Got: \"" ++ text ++ "\""
            assertion := assertion }

/-- `output_contains` evaluator. -/
def output_contains (_env : JsEnv) (assertion : Assertion)
    (ctx : AssertionContext) : Except String AssertionResult :=
  match ctx.toolResult with
  | none => .ok { passed := false, message := "No tool result", assertion := assertion }
  | some tr =>
    let text := getOutputText tr
    let contains := jsIncludes text (jsStrOpt assertion.value)
    .ok { passed := contains
          message :=
            if contains then
              "Output contains \"" ++ jsStrOpt assertion.value ++ "\""
            else
              "Output does not contain \"" ++ jsStrOpt assertion.value ++
                "\". Got: \"" ++ text ++ "\""
          assertion := assertion }

/-- `output_matches` evaluator. `new RegExp(assertion.pattern!)` compiles the
pattern and THROWS a `SyntaxError` on an invalid pattern (modelled by
`env.regexCompile` returning `.error`); `new RegExp(undefined)` is the empty
regex, which never throws and matches every string. -/
def output_matches (env : JsEnv) (assertion : Assertion)
    (ctx : AssertionContext) : Except String AssertionResult :=
  match ctx.toolResult with
  | none => .ok { passed := false, message := "No tool result", assertion := assertion }
  | some tr =>
    let text := getOutputText tr
    match assertion.pattern with
    | none =>
      .ok { passed := true
            message := "Output matches pattern /undefined/"
            assertion := assertion }
    | some p =>
      match env.regexCompile p with
      | .error e => .error e
      | .ok test =>
        let isMatch := test text
        .ok { passed := isMatch
              message :=
                if isMatch then "Output matches pattern /" ++ p ++ "/"
                else "Output does not match /" ++ p ++ "/. Got: \"" ++ text ++ "\""
              assertion := assertion }

/-- `output_json` evaluator (the `JSON.parse` throw is caught here). -/
def output_json (env : JsEnv) (assertion : Assertion)
    (ctx : AssertionContext) : Except String AssertionResult :=
  match ctx.toolResult with
  | none => .ok { passed := false, message := "No tool result", assertion := assertion }
  | some tr =>
    let text := getOutputText tr
    match env.jsonParse text with
    | some _ => .ok { passed := true, message := "Output is valid JSON", assertion := assertion }
    | none =>
      .ok { passed := false
            message := "Output is not valid JSON: \"" ++ (text.take 100) ++ "\""
            assertion := assertion }

/-- `output_json_schema` evaluator. The `JSON.parse` throw is caught, but
`ajv.compile(assertion.schema!)` is NOT inside a try/catch: a compile throw
propagates. -/
def output_json_schema (env : JsEnv) (assertion : Assertion)
    (ctx : AssertionContext) : Except String AssertionResult :=
  match ctx.toolResult with
  | none => .ok { passed := false, message := "No tool result", assertion := assertion }
  | some tr =>
    let text := getOutputText tr
    match env.jsonParse text with
    | none =>
      .ok { passed := false, message := "Output is not valid JSON", assertion := assertion }
    | some parsed =>
      match env.ajvCompile assertion.schema with
      | .error e => .error e
      | .ok validate =>
        let r := validate parsed
        .ok { passed := r.1
              message :=
                if r.1 then "Output matches JSON Schema"
                else "Output does not match schema: " ++ r.2
              assertion := assertion }

/-- `contains_tool` evaluator. -/
def contains_tool (_env : JsEnv) (assertion : Assertion)
    (ctx : AssertionContext) : Except String AssertionResult :=
  match ctx.tools with
  | none => .ok { passed := false, message := "No tools available", assertion := assertion }
  | some tools =>
    let found := match assertion.name with
      | some n => tools.any (fun t => t.name == n)
      | none => false
    let avail := String.intercalate ", " (tools.map (fun t => t.name))
    .ok { passed := found
          message :=
            if found then
              "Tools list contains \"" ++ jsStrOpt assertion.name ++ "\""
            else
              "Tools list does not contain \"" ++ jsStrOpt assertion.name ++
                "\". Available: " ++ avail
          assertion := assertion }

/-- `tool_count` evaluator: `checkCount(ctx.tools?.length ?? 0, "tool", a)`. -/
def tool_count (_env : JsEnv) (assertion : Assertion)
    (ctx : AssertionContext) : Except String AssertionResult :=
  .ok (checkCount ((ctx.tools.map (fun l => (l.length : Int))).getD 0) "tool" assertion)

/-- `resource_count` evaluator. -/
def resource_count (_env : JsEnv) (assertion : Assertion)
    (ctx : AssertionContext) : Except String AssertionResult :=
  .ok (checkCount ((ctx.resources.map (fun l => (l.length : Int))).getD 0)
        "resource" assertion)

/-- `prompt_count` evaluator. -/
def prompt_count (_env : JsEnv) (assertion : Assertion)
    (ctx : AssertionContext) : Except String AssertionResult :=
  .ok (checkCount ((ctx.prompts.map (fun l => (l.length : Int))).getD 0)
        "prompt" assertion)

/-- `schema_valid` evaluator (each `ajv.compile` here IS inside a try/catch,
so a compile throw is converted to an error string). -/
def schema_valid (env : JsEnv) (assertion : Assertion)
    (ctx : AssertionContext) : Except String AssertionResult :=
  match ctx.tools with
  | none => .ok { passed := false, message := "No tools to validate", assertion := assertion }
  | some tools =>
    if tools.length == 0 then
      .ok { passed := false, message := "No tools to validate", assertion := assertion }
    else
      let errors := tools.flatMap (fun tool =>
        (if tool.name == "" then ["Tool missing \x27name\x27"] else []) ++
        (match tool.inputSchema with
          | none => []
          | some sch =>
            match env.ajvCompile (some sch) with
            | .ok _ => []
            | .error m =>
              ["Tool \"" ++ tool.name ++ "\" has invalid inputSchema: " ++ m]))
      .ok { passed := errors.length == 0
            message :=
              if errors.length == 0 then "All tool schemas are valid"
              else "Schema errors: " ++ String.intercalate "; " errors
            assertion := assertion }

/-- `response_time` evaluator (`ms <= undefined` is false in JS when the `ms`
field is missing). -/
def response_time (_env : JsEnv) (assertion : Assertion)
    (ctx : AssertionContext) : Except String AssertionResult :=
  let ms := ctx.elapsedMs.getD 0
  let passed := match assertion.ms with
    | some limit => decide (ms ≤ limit)
    | none => false
  .ok { passed := passed
        message :=
          if passed then
            "Response time " ++ toString ms ++ "ms <= " ++
              jsNumOpt assertion.ms ++ "ms"
          else
            "Response time " ++ toString ms ++ "ms exceeded " ++
              jsNumOpt assertion.ms ++ "ms limit"
        assertion := assertion }

end evaluators

/-- `evaluateAssertion` from src/assertions.ts: dispatch on `assertion.type`
over the 13 evaluator keys; an unknown type yields a deterministic failing
result. -/
def evaluateAssertion (env : JsEnv) (assertion : Assertion)
    (ctx : AssertionContext) : Except String AssertionResult :=
  match assertion.type with
  | "success" => evaluators.success env assertion ctx
  | "error" => evaluators.error env assertion ctx
  | "error_contains" => evaluators.error_contains env assertion ctx
  | "output_contains" => evaluators.output_contains env assertion ctx
  | "output_matches" => evaluators.output_matches env assertion ctx
  | "output_json" => evaluators.output_json env assertion ctx
  | "output_json_schema" => evaluators.output_json_schema env assertion ctx
  | "contains_tool" => evaluators.contains_tool env assertion ctx
  | "tool_count" => evaluators.tool_count env assertion ctx
  | "resource_count" => evaluators.resource_count env assertion ctx
  | "prompt_count" => evaluators.prompt_count env assertion ctx
  | "schema_valid" => evaluators.schema_valid env assertion ctx
  | "response_time" => evaluators.response_time env assertion ctx
  | _ =>
    .ok { passed := false
          message := "Unknown assertion type: " ++ assertion.type
          assertion := assertion }

-- ### Test runner (src/runner.ts)

/-- `TestDefinition.action` from src/config.ts. -/
inductive TestAction where
  | list_tools
  | call_tool
  | list_resources
  | list_prompts

/-- `TestDefinition` from src/config.ts. -/
structure TestDefinition where
  name : String
  action : TestAction
  tool : Option String := none
  args : Option JsValue := none
  assert : List Assertion

/-- `ServerConfig` from src/config.ts. -/
structure ServerConfig where
  command : String
  args : Option (List String) := none
  env : Option (List (String × String)) := none

/-- `McpTestConfig` from src/config.ts. -/
structure McpTestConfig where
  server : ServerConfig
  tests : List TestDefinition

/-- `TestResult` from src/runner.ts. -/
structure TestResult where
  name : String
  passed : Bool
  assertions : List AssertionResult
  error : Option String := none
  elapsedMs : Int

/-- `RunResult` from src/runner.ts. -/
structure RunResult where
  tests : List TestResult
  totalPassed : Nat
  totalFailed : Nat
  totalAssertions : Nat
  passedAssertions : Nat
  elapsedMs : Int

/-- The four session operations of `McpClient` as observed by one test case;
`.error msg` models a thrown `SessionError` with message `msg`.
`callTool` receives `test.tool!` (possibly `undefined`) and
`test.args ?? {}`. -/
structure SessionCalls where
  listTools : Except String (List McpTool)
  listResources : Except String (List McpResource)
  listPrompts : Except String (List McpPrompt)
  callTool : Option String → JsValue → Except String ToolCallResult

/-- The behaviour of the spawned server/transport during one run:
the outcome of `client.connect` (`.error msg` = thrown `ConnectionError`),
the per-test view of the session operations, and the per-test wall-clock
time `Date.now() - start` measured around the session call. -/
structure ClientBehavior where
  connectResult : Except String Unit
  perTest : TestDefinition → SessionCalls
  elapsed : TestDefinition → Int

/-- The `switch (test.action)` of `runSingleTest`: dispatch the test's action
to the matching session call and build the observation context. -/
def buildCtx (beh : ClientBehavior) (test : TestDefinition) :
    Except String AssertionContext :=
  let calls := beh.perTest test
  match test.action with
  | .list_tools => calls.listTools.map (fun ts => { tools := some ts })
  | .call_tool =>
    (calls.callTool test.tool (test.args.getD (.obj []))).map
      (fun r => { toolResult := some r })
  | .list_resources => calls.listResources.map (fun rs => { resources := some rs })
  | .list_prompts => calls.listPrompts.map (fun ps => { prompts := some ps })

/-- `runSingleTest` from src/runner.ts. Any throw inside the try block (the
session call, or an evaluator throw propagating out of `evaluateAssertion`)
is caught and recorded as a failed test with zero assertions. -/
def runSingleTest (env : JsEnv) (beh : ClientBehavior)
    (test : TestDefinition) : TestResult :=
  match buildCtx beh test with
  | .error msg =>
    { name := test.name, passed := false, assertions := []
      error := some msg, elapsedMs := beh.elapsed test }
  | .ok ctx0 =>
    let elapsedMs := beh.elapsed test
    let ctx := { ctx0 with elapsedMs := some elapsedMs }
    match test.assert.mapM (fun a => evaluateAssertion env a ctx) with
    | .error msg =>
      { name := test.name, passed := false, assertions := []
        error := some msg, elapsedMs := beh.elapsed test }
    | .ok results =>
      { name := test.name, passed := results.all (fun a => a.passed)
        assertions := results, error := none, elapsedMs := elapsedMs }

/-- The failure record pushed for a test when the connection failed. -/
def connFailRec (msg : String) (test : TestDefinition) : TestResult :=
  { name := test.name, passed := false, assertions := []
    error := some ("Server connection error: " ++ msg), elapsedMs := 0 }

/-- The `for (const test of config.tests)` loop in the catch block of
`runTests`: push a connection-failure record for each test whose name is not
already among the accumulated results. -/
def connectFailLoop (msg : String) (acc : List TestResult) :
    List TestDefinition → List TestResult
  | [] => acc
  | test :: rest =>
    if acc.any (fun r => r.name == test.name) then
      connectFailLoop msg acc rest
    else
      connectFailLoop msg (acc ++ [connFailRec msg test]) rest

/-- Results produced when `client.connect` throws (the catch block runs with
an empty `results` array, since no test has been attempted). -/
def connectFailResults (msg : String) (tests : List TestDefinition) :
    List TestResult :=
  connectFailLoop msg [] tests

/-- The aggregation after the loop in `runTests` (`runElapsed` models the
final `Date.now() - runStart`). -/
def aggregate (results : List TestResult) (runElapsed : Int) : RunResult :=
  { tests := results
    totalPassed := (results.filter (fun r => r.passed)).length
    totalFailed := (results.filter (fun r => !r.passed)).length
    totalAssertions := results.foldl (fun sum r => sum + r.assertions.length) 0
    passedAssertions :=
      results.foldl
        (fun sum r => sum + (r.assertions.filter (fun a => a.passed)).length) 0
    elapsedMs := runElapsed }

/-- `runTests` from src/runner.ts. `runSingleTest` is total (it catches every
throw), so the only throw reaching the catch block is a failed
`client.connect`. -/
def runTests (env : JsEnv) (beh : ClientBehavior) (runElapsed : Int)
    (config : McpTestConfig) : RunResult :=
  let results : List TestResult :=
    match beh.connectResult with
    | .ok _ => config.tests.map (runSingleTest env beh)
    | .error msg => connectFailResults msg config.tests
  aggregate results runElapsed

-- ### Config validation (src/config.ts)

/-- `VALID_ACTIONS` from src/config.ts. -/
def VALID_ACTIONS : List String :=
  ["list_tools", "call_tool", "list_resources", "list_prompts"]

/-- `VALID_ASSERTION_TYPES` from src/config.ts: the 13 recognized assertion
kinds (identical to the keys of the evaluator dispatch). -/
def VALID_ASSERTION_TYPES : List String :=
  ["success", "error", "error_contains", "output_contains", "output_matches",
   "output_json", "output_json_schema", "contains_tool", "tool_count",
   "resource_count", "prompt_count", "schema_valid", "response_time"]

/-- `VALID_ACTIONS.join(", ")`. -/
def validActionsJoined : String := String.intercalate ", " VALID_ACTIONS

/-- `VALID_ASSERTION_TYPES.join(", ")`. -/
def validTypesJoined : String := String.intercalate ", " VALID_ASSERTION_TYPES

/-- The inner loop over `test.assert` in `validateConfig`: the only check on
an assertion entry is `VALID_ASSERTION_TYPES.includes(a.type)`. -/
def validateAsserts (i : Nat) (j : Nat) : List JsValue → Except String Unit
  | [] => .ok ()
  | a :: rest =>
    let typeOk := match jsGet a "type" with
      | some (.str s) => VALID_ASSERTION_TYPES.contains s
      | _ => false
    if typeOk then
      validateAsserts i (j + 1) rest
    else
      .error ("tests[" ++ toString i ++ "].assert[" ++ toString j ++
        "].type \x27" ++ jsString (jsGet a "type") ++
        "\x27 is not valid. Must be one of: " ++ validTypesJoined)

/-- The per-test checks of `validateConfig`. -/
def validateTest (i : Nat) (test : JsValue) : Except String Unit := do
  let name := jsGet test "name"
  if typeofOpt name != "string" || !(jsTruthyV name) then
    throw ("tests[" ++ toString i ++ "].name must be a non-empty string")
  let actionOk := match jsGet test "action" with
    | some (.str s) => VALID_ACTIONS.contains s
    | _ => false
  if !actionOk then
    throw ("tests[" ++ toString i ++ "].action must be one of: " ++
      validActionsJoined)
  let isCallTool := match jsGet test "action" with
    | some (.str s) => s == "call_tool"
    | _ => false
  if isCallTool && typeofOpt (jsGet test "tool") != "string" then
    throw ("tests[" ++ toString i ++
      "] with action \x27call_tool\x27 must specify \x27tool\x27")
  match jsGet test "assert" with
  | some (.arr asserts) =>
    if asserts.length == 0 then
      throw ("tests[" ++ toString i ++ "].assert must be a non-empty array")
    validateAsserts i 0 asserts
  | _ => throw ("tests[" ++ toString i ++ "].assert must be a non-empty array")

/-- The outer loop over `c.tests` in `validateConfig`. -/
def validateTestList (i : Nat) : List JsValue → Except String Unit
  | [] => .ok ()
  | t :: rest => do
    validateTest i t
    validateTestList (i + 1) rest

/-- `validateConfig` from src/config.ts on the untyped parsed document. The
source ends with `return config as McpTestConfig` (a cast, not a
conversion), so success returns the input value unchanged. -/
def validateConfig (config : JsValue) : Except String JsValue := do
  if !(jsTruthyV (some config)) || typeofOpt (some config) != "object" then
    throw "Config must be an object"
  let server := jsGet config "server"
  if !(jsTruthyV server) || typeofOpt server != "object" then
    throw "Config must have a \x27server\x27 section"
  if typeofOpt (jsGetOpt server "command") != "string" ||
      !(jsTruthyV (jsGetOpt server "command")) then
    throw "server.command must be a non-empty string"
  let args := jsGetOpt server "args"
  if args.isSome && !(isArrayOpt args) then
    throw "server.args must be an array"
  let env := jsGetOpt server "env"
  if env.isSome && typeofOpt env != "object" then
    throw "server.env must be an object"
  match jsGet config "tests" with
  | some (.arr tests) =>
    if tests.length == 0 then
      throw "Config must have a non-empty \x27tests\x27 array"
    validateTestList 0 tests
    pure config
  | _ => throw "Config must have a non-empty \x27tests\x27 array"

-- ### Spec-side definitions (for comparison with the code)

/-- The spec's counting rule, stated from its words: if `exact` is specified,
pass iff actual == exact (min/max, if also present, are ignored); otherwise
pass iff (min absent or actual ≥ min) and (max absent or actual ≤ max); with
none of exact/min/max set every count passes. -/
def countingRuleSpec (a : Assertion) (actual : Int) : Bool :=
  match a.exact with
  | some e => actual == e
  | none =>
    (match a.min with
      | none => true
      | some m => decide (actual ≥ m)) &&
    (match a.max with
      | none => true
      | some m => decide (actual ≤ m))

/-- The output text as the claim words it: the newline-join, in list order,
of EVERY content block whose kind is textual (non-textual blocks skipped) —
to be compared with the code's `getOutputText`, which additionally skips
textual blocks whose `text` is absent or empty. -/
def getOutputTextSpec (result : ToolCallResult) : String :=
  String.intercalate "\n"
    ((result.content.filter (fun c => c.type == "text")).map
      (fun c => c.text.getD ""))

-- ### Concrete fixtures for witnesses and counterexamples

/-- A benign external environment (regexes compile and match everything,
nothing parses as JSON, schema compilation throws). -/
def envEx : JsEnv :=
  { regexCompile := fun _ => .ok (fun _ => true)
    jsonParse := fun _ => none
    ajvCompile := fun _ => .error "schema must be object or boolean" }

/-- An environment whose regex engine rejects the pattern `(` —
as JavaScript's `new RegExp` does. -/
def envBadRegex : JsEnv :=
  { regexCompile := fun p =>
      if p == "(" then .error "Invalid regular expression: missing )"
      else .ok (fun _ => false)
    jsonParse := fun _ => none
    ajvCompile := fun _ => .error "schema must be object or boolean" }

/-- Session calls that all succeed with empty listings. -/
def callsOk : SessionCalls :=
  { listTools := .ok []
    listResources := .ok []
    listPrompts := .ok []
    callTool := fun _ _ => .ok { content := [] } }

/-- Session calls whose `listTools` throws a `SessionError`. -/
def callsToolsFail : SessionCalls :=
  { callsOk with listTools := .error "session dead" }

/-- A context holding two tools. -/
def ctxTools2 : AssertionContext :=
  { tools := some [{ name := "a" }, { name := "b" }] }

/-- A `tool_count` assertion with `exact := 2`. -/
def aToolCountEx : Assertion := { type := "tool_count", exact := some 2 }

/-- An assertion with an unrecognized type. -/
def aUnknown : Assertion := { type := "nonexistent" }

/-- An `output_matches` assertion with the invalid regex pattern `(`. -/
def aBadPattern : Assertion := { type := "output_matches", pattern := some "(" }

/-- A `success` assertion. -/
def aSuccess : Assertion := { type := "success" }

/-- An `error` assertion. -/
def aError : Assertion := { type := "error" }

/-- A tool-call result reporting a tool-level error. -/
def trErr : ToolCallResult :=
  { content := [{ type := "text", text := some "boom" }], isError := some true }

/-- A context holding `trErr`. -/
def ctxTR : AssertionContext := { toolResult := some trErr }

/-- A tool-call result with one text block. -/
def trText : ToolCallResult :=
  { content := [{ type := "text", text := some "hello" }] }

/-- A context holding `trText`. -/
def ctxText : AssertionContext := { toolResult := some trText }

/-- A result whose content holds a textual block with text `"a"` and a
textual block with EMPTY text: the code's output text is `"a"`, the claim's
newline-join of every textual block is `"a\n"`. -/
def cexEmptyText : ToolCallResult :=
  { content := [{ type := "text", text := some "a" },
                { type := "text", text := some "" }] }

/-- A result with a single text block `"a"` (same code output text as
`cexEmptyText`). -/
def trOne : ToolCallResult := { content := [{ type := "text", text := some "a" }] }

/-- Test whose session call will throw. -/
def tFail : TestDefinition :=
  { name := "t1", action := .list_tools
    assert := [{ type := "tool_count", min := some 1 }] }

/-- Test run after the failing one. -/
def tNext : TestDefinition :=
  { name := "t2", action := .list_tools
    assert := [{ type := "tool_count", max := some 0 }] }

/-- Behaviour: connect succeeds, the session call of `tFail` throws a
`SessionError`, every other call succeeds. -/
def behC7 : ClientBehavior :=
  { connectResult := .ok ()
    perTest := fun t => if t.name == "t1" then callsToolsFail else callsOk
    elapsed := fun _ => 5 }

/-- Config declaring `tFail` then `tNext`. -/
def cfgC7 : McpTestConfig :=
  { server := { command := "node" }, tests := [tFail, tNext] }

/-- Behaviour of a run whose connect throws. -/
def behConnFail : ClientBehavior :=
  { connectResult := .error "spawn bad ENOENT"
    perTest := fun _ => callsOk
    elapsed := fun _ => 0 }

/-- Behaviour of a run whose connect succeeds. -/
def behOk : ClientBehavior :=
  { connectResult := .ok ()
    perTest := fun _ => callsOk
    elapsed := fun _ => 0 }

/-- First of two declared tests sharing the name `a`. -/
def tDupA1 : TestDefinition :=
  { name := "a", action := .list_tools, assert := [{ type := "success" }] }

/-- Second declared test also named `a`. -/
def tDupA2 : TestDefinition :=
  { name := "a", action := .list_prompts, assert := [{ type := "error" }] }

/-- A config with two declared tests that share a name. -/
def cfgDup : McpTestConfig :=
  { server := { command := "bad" }, tests := [tDupA1, tDupA2] }

/-- A test named `b`. -/
def tB : TestDefinition :=
  { name := "b", action := .list_tools, assert := [{ type := "success" }] }

/-- A test named `x`. -/
def tX : TestDefinition :=
  { name := "x", action := .list_tools, assert := [{ type := "success" }] }

/-- A test named `y`. -/
def tY : TestDefinition :=
  { name := "y", action := .list_tools, assert := [{ type := "success" }] }

/-- Three declared tests, the first two sharing the name `x`. -/
def cfgDup3 : McpTestConfig :=
  { server := { command := "bad" }, tests := [tX, tX, tY] }

/-- Two declared tests with distinct names. -/
def cfgTwo : McpTestConfig :=
  { server := { command := "bad" }, tests := [tDupA1, tB] }

/-- A raw parsed config whose assertion entries have recognized types but
missing or ill-typed kind-specific fields (`error_contains` without `value`,
`output_matches` without `pattern` and with a numeric `pattern`,
`response_time` without `ms`, `output_json_schema` with a string `schema`). -/
def cfgMissingFields : JsValue :=
  .obj [("server", .obj [("command", .str "node")]),
        ("tests", .arr [
          .obj [("name", .str "t"), ("action", .str "call_tool"),
                ("tool", .str "echo"),
                ("assert", .arr [
                  .obj [("type", .str "error_contains")],
                  .obj [("type", .str "output_matches")],
                  .obj [("type", .str "response_time")],
                  .obj [("type", .str "output_matches"), ("pattern", .num 5)],
                  .obj [("type", .str "output_json_schema"),
                        ("schema", .str "nope")]])]])]

/-- A raw assertion entry of recognized type carrying an unrelated field. -/
def aExType : JsValue := .obj [("type", .str "success"), ("bogus", .num 1)]

-- ### Theorems

/-- The pass flag computed by `checkCount` is exactly the spec's counting
rule. -/
theorem checkCount_passed (actual : Int) (label : String) (a : Assertion) :
    (checkCount actual label a).passed = countingRuleSpec a actual := by
  unfold checkCount countingRuleSpec
  cases a.exact with
  | some e => rfl
  | none =>
    dsimp only
    split
    · next h => exact h.symm
    · next h => simp only [Bool.not_eq_true] at h; exact h.symm

/-- C1: each of the three counting assertions (`tool_count`,
`resource_count`, `prompt_count`) evaluates without throwing, and its pass
flag is the spec's counting rule (exact takes precedence over min/max,
otherwise combinable bounds, trivially true with none set) applied to the
length of the respective list, 0 when the list is absent. -/
theorem c1_count_assertions (env : JsEnv) (a : Assertion)
    (ctx : AssertionContext) :
    (a.type = "tool_count" →
      ∃ r, evaluateAssertion env a ctx = .ok r ∧
        r.passed = countingRuleSpec a
          ((ctx.tools.map (fun l => (l.length : Int))).getD 0)) ∧
    (a.type = "resource_count" →
      ∃ r, evaluateAssertion env a ctx = .ok r ∧
        r.passed = countingRuleSpec a
          ((ctx.resources.map (fun l => (l.length : Int))).getD 0)) ∧
    (a.type = "prompt_count" →
      ∃ r, evaluateAssertion env a ctx = .ok r ∧
        r.passed = countingRuleSpec a
          ((ctx.prompts.map (fun l => (l.length : Int))).getD 0)) := by
  obtain ⟨ty, nm, vl, pat, mn, mx, ex, sch, ms⟩ := a
  refine ⟨?_, ?_, ?_⟩ <;> intro h <;> simp only at h <;> subst h
  · exact ⟨_, rfl, checkCount_passed _ _ _⟩
  · exact ⟨_, rfl, checkCount_passed _ _ _⟩
  · exact ⟨_, rfl, checkCount_passed _ _ _⟩

/-- Witness for C1 at a concrete input: a `tool_count` assertion with
`exact := 2` against a context holding two tools. -/
theorem c1_count_assertions_witness :
    aToolCountEx.type = "tool_count" ∧
    (∃ r, evaluateAssertion envEx aToolCountEx ctxTools2 = .ok r ∧
      r.passed = countingRuleSpec aToolCountEx
        ((ctxTools2.tools.map (fun l => (l.length : Int))).getD 0)) :=
  ⟨rfl, (c1_count_assertions envEx aToolCountEx ctxTools2).1 rfl⟩

/-- C4: with a tool-call result present, `success` passes iff `isError` is
falsy (absent or false), `error` passes iff `isError === true`, and exactly
one of the two passes. -/
theorem c4_success_error_dichotomy (env : JsEnv) (ctx : AssertionContext)
    (tr : ToolCallResult) (a b : Assertion)
    (hctx : ctx.toolResult = some tr)
    (ha : a.type = "success") (hb : b.type = "error") :
    ∃ ra rb, evaluateAssertion env a ctx = .ok ra ∧
      evaluateAssertion env b ctx = .ok rb ∧
      ra.passed = !(tr.isError.getD false) ∧
      rb.passed = (tr.isError == some true) ∧
      ra.passed = !rb.passed := by
  obtain ⟨ta, na, va, pa, mna, mxa, exa, scha, msa⟩ := a
  obtain ⟨tb, nb, vb, pb, mnb, mxb, exb, schb, msb⟩ := b
  obtain ⟨ts, rs, ps, tres, el⟩ := ctx
  simp only at ha hb hctx
  subst ha hb hctx
  refine ⟨_, _, rfl, rfl, rfl, rfl, ?_⟩
  obtain ⟨content, isErr⟩ := tr
  rcases isErr with _ | b
  · rfl
  · cases b <;> rfl

/-- Witness for C4 at a concrete input: a tool-call result with
`isError := true`. -/
theorem c4_success_error_dichotomy_witness :
    ctxTR.toolResult = some trErr ∧
    ∃ ra rb, evaluateAssertion envEx aSuccess ctxTR = .ok ra ∧
      evaluateAssertion envEx aError ctxTR = .ok rb ∧
      ra.passed = !(trErr.isError.getD false) ∧
      rb.passed = (trErr.isError == some true) ∧
      ra.passed = !rb.passed :=
  ⟨rfl, c4_success_error_dichotomy envEx ctxTR trErr aSuccess aError rfl rfl rfl⟩

/-- C5: for an assertion whose type is outside the 13 recognized kinds,
`evaluateAssertion` returns (does not throw) a failing result whose message
names the unrecognized type. -/
theorem c5_unknown_type (env : JsEnv) (a : Assertion) (ctx : AssertionContext)
    (h : a.type ∉ VALID_ASSERTION_TYPES) :
    evaluateAssertion env a ctx =
      .ok { passed := false
            message := "Unknown assertion type: " ++ a.type
            assertion := a } := by
  obtain ⟨ty, nm, vl, pat, mn, mx, ex, sch, ms⟩ := a
  simp only at h ⊢
  unfold evaluateAssertion
  split <;> first
    | rfl
    | (rename_i heq; subst heq; exact absurd (by decide) h)

/-- Witness for C5 at a concrete input: the type `nonexistent`. -/
theorem c5_unknown_type_witness :
    aUnknown.type ∉ VALID_ASSERTION_TYPES ∧
    evaluateAssertion envEx aUnknown {} =
      .ok { passed := false
            message := "Unknown assertion type: " ++ aUnknown.type
            assertion := aUnknown } :=
  ⟨by decide, c5_unknown_type envEx aUnknown {} (by decide)⟩

/-- C3 (the code bug): when the regex engine rejects the pattern —
as JavaScript's `new RegExp("(")` does — the `output_matches` evaluator
propagates the throw, so `evaluateAssertion` is NOT total: it returns
`.error` instead of an `AssertionResult`. -/
theorem c3_output_matches_throws (env : JsEnv) (ctx : AssertionContext)
    (tr : ToolCallResult) (a : Assertion) (m : String)
    (hctx : ctx.toolResult = some tr)
    (hty : a.type = "output_matches")
    (hpat : a.pattern = some "(")
    (hre : env.regexCompile "(" = .error m) :
    evaluateAssertion env a ctx = .error m := by
  obtain ⟨ty, nm, vl, pat, mn, mx, ex, sch, ms⟩ := a
  obtain ⟨ts, rs, ps, tres, el⟩ := ctx
  simp only at hctx hty hpat
  subst hctx hty hpat
  unfold evaluateAssertion evaluators.output_matches
  simp only [hre]

/-- Witness for C3's failing input: the concrete environment `envBadRegex`
(whose regex compiler rejects `(`), an `output_matches` assertion with
pattern `(`, and a context with a tool result present. -/
theorem c3_output_matches_throws_witness :
    ctxText.toolResult = some trText ∧
    envBadRegex.regexCompile "(" = .error "Invalid regular expression: missing )" ∧
    evaluateAssertion envBadRegex aBadPattern ctxText =
      .error "Invalid regular expression: missing )" :=
  ⟨rfl, rfl,
    c3_output_matches_throws envBadRegex ctxText trText aBadPattern
      "Invalid regular expression: missing )" rfl rfl rfl rfl⟩

/-- C6 counterexample: on a result with a textual block `"a"` followed by a
textual block with empty text, the code's output text is `"a"` while the
claim's newline-join of every textual block is `"a\n"`; an `output_contains`
assertion looking for `"a\n"` therefore fails although the claim's text
contains it. -/
theorem c6_counterexample :
    getOutputText cexEmptyText = "a" ∧
    getOutputTextSpec cexEmptyText = "a\n" ∧
    getOutputText cexEmptyText ≠ getOutputTextSpec cexEmptyText ∧
    (evaluateAssertion envEx { type := "output_contains", value := some "a\n" }
        { toolResult := some cexEmptyText }).map (fun r => r.passed) =
      .ok false ∧
    jsIncludes (getOutputTextSpec cexEmptyText) "a\n" = true := by
  refine ⟨rfl, rfl, by decide, rfl, by decide⟩

/-- C6 amended: the text the four output assertions evaluate against is the
newline-join, in list order, of every content block whose kind is textual
AND whose text is present and non-empty (textual blocks with absent or empty
text are skipped along with non-textual blocks); the four output assertion
kinds read the tool result only through that text. -/
theorem c6_output_text_amended :
    (∀ tr : ToolCallResult,
      getOutputText tr =
        String.intercalate "\n"
          ((tr.content.filter
              (fun c => c.type == "text" && !(c.text.getD "" == ""))).map
            (fun c => c.text.getD ""))) ∧
    (∀ (env : JsEnv) (a : Assertion) (ctx ctx' : AssertionContext)
        (tr tr' : ToolCallResult),
      ctx.toolResult = some tr → ctx'.toolResult = some tr' →
      getOutputText tr = getOutputText tr' →
      (a.type = "output_contains" ∨ a.type = "output_matches" ∨
        a.type = "output_json" ∨ a.type = "output_json_schema") →
      evaluateAssertion env a ctx = evaluateAssertion env a ctx') := by
  constructor
  · intro tr
    have hp : ∀ c : ContentBlock,
        (c.type == "text" && truthyText c) =
          (c.type == "text" && !(c.text.getD "" == "")) := by
      intro c
      cases h : c.text <;> simp [truthyText, h]
    unfold getOutputText
    simp only [hp]
  · intro env a ctx ctx' tr tr' h h' htext hty
    obtain ⟨ty, nm, vl, pat, mn, mx, ex, sch, ms⟩ := a
    obtain ⟨ts, rs, ps, tres, el⟩ := ctx
    obtain ⟨ts', rs', ps', tres', el'⟩ := ctx'
    simp only at h h' hty
    subst h h'
    rcases hty with h1 | h1 | h1 | h1 <;> subst h1 <;>
      unfold evaluateAssertion <;>
      simp only [evaluators.output_contains, evaluators.output_matches,
        evaluators.output_json, evaluators.output_json_schema, htext]

/-- Witness for the amended C6: two different results with the same code
output text `"a"` — one a single block, the other carrying an extra
empty-text block — yield identical `output_contains` evaluations. -/
theorem c6_output_text_amended_witness :
    getOutputText trOne = getOutputText cexEmptyText ∧
    evaluateAssertion envEx { type := "output_contains", value := some "a" }
        { toolResult := some trOne } =
      evaluateAssertion envEx { type := "output_contains", value := some "a" }
        { toolResult := some cexEmptyText } :=
  ⟨rfl,
    c6_output_text_amended.2 envEx
      { type := "output_contains", value := some "a" }
      { toolResult := some trOne } { toolResult := some cexEmptyText }
      trOne cexEmptyText rfl rfl rfl (Or.inl rfl)⟩

/-- C7: when connect succeeded and the session call of some test throws a
`SessionError`, that test is recorded as failed with the error message and an
empty assertions list, and every other test — before and after it — is
recorded with its own independent `runSingleTest` outcome. -/
theorem c7_fail_isolation (env : JsEnv) (beh : ClientBehavior) (rE : Int)
    (cfg : McpTestConfig) (pre post : List TestDefinition)
    (t : TestDefinition) (msg : String)
    (hconn : beh.connectResult = .ok ())
    (hsplit : cfg.tests = pre ++ t :: post)
    (herr : buildCtx beh t = .error msg) :
    (runTests env beh rE cfg).tests =
      pre.map (runSingleTest env beh) ++
        ({ name := t.name, passed := false, assertions := []
           error := some msg, elapsedMs := beh.elapsed t } : TestResult) ::
        post.map (runSingleTest env beh) := by
  have hsingle : runSingleTest env beh t =
      { name := t.name, passed := false, assertions := []
        error := some msg, elapsedMs := beh.elapsed t } := by
    unfold runSingleTest
    rw [herr]
  unfold runTests aggregate
  rw [hconn]
  simp only [hsplit, List.map_append, List.map_cons, hsingle]

/-- Witness for C7: a concrete run of two tests where the first test's
session call throws `"session dead"` and the second runs normally. -/
theorem c7_fail_isolation_witness :
    behC7.connectResult = .ok () ∧
    cfgC7.tests = [] ++ tFail :: [tNext] ∧
    buildCtx behC7 tFail = .error "session dead" ∧
    (runTests envEx behC7 0 cfgC7).tests =
      ([] : List TestDefinition).map (runSingleTest envEx behC7) ++
        ({ name := tFail.name, passed := false, assertions := []
           error := some "session dead", elapsedMs := behC7.elapsed tFail } :
            TestResult) ::
        [tNext].map (runSingleTest envEx behC7) :=
  ⟨rfl, rfl, rfl,
    c7_fail_isolation envEx behC7 0 cfgC7 [] [tNext] tFail "session dead"
      rfl rfl rfl⟩

/-- The catch-block loop of `runTests`: with pairwise-distinct test names and
an accumulator containing none of those names, it appends exactly one
connection-failure record per test, in declaration order. -/
theorem connectFailLoop_eq (msg : String) (tests : List TestDefinition) :
    ∀ acc : List TestResult,
      (∀ t ∈ tests, ∀ r ∈ acc, r.name ≠ t.name) →
      tests.Pairwise (fun s t => s.name ≠ t.name) →
      connectFailLoop msg acc tests = acc ++ tests.map (connFailRec msg) := by
  induction tests with
  | nil =>
    intro acc _ _
    simp [connectFailLoop]
  | cons t rest ih =>
    intro acc hacc hpw
    have hany : acc.any (fun r => r.name == t.name) = false := by
      rw [List.any_eq_false]
      intro r hr
      simpa using hacc t (List.mem_cons_self t rest) r hr
    rw [connectFailLoop, hany]
    simp only [Bool.false_eq_true, if_false]
    rw [ih (acc ++ [connFailRec msg t]) ?_ (List.pairwise_cons.mp hpw).2]
    · simp
    · intro t' ht' r hr
      rcases List.mem_append.mp hr with hr | hr
      · exact hacc t' (List.mem_cons_of_mem t ht') r hr
      · have hr' : r = connFailRec msg t := by simpa using hr
        subst hr'
        exact (List.pairwise_cons.mp hpw).1 t' ht'

/-- C2 counterexample: when connect fails on a configuration with TWO
declared tests that share a name, the catch block's name-based
de-duplication records only ONE failed TestResult — not one per declared
test as the claim states. -/
theorem c2_counterexample :
    behConnFail.connectResult = .error "spawn bad ENOENT" ∧
    cfgDup.tests.length = 2 ∧
    (runTests envEx behConnFail 0 cfgDup).tests.length = 1 := by
  exact ⟨rfl, rfl, rfl⟩

/-- C2 amended: when connect fails, provided the declared test names are
pairwise distinct, the RunResult contains one failed TestResult per declared
test, in configuration order, each with zero assertions, elapsedMs 0 and the
identical message `Server connection error: <message>`; moreover the result
does not depend on the per-test session behaviour (no test's action is
dispatched). -/
theorem c2_connect_fail_amended (env : JsEnv) (beh : ClientBehavior)
    (rE : Int) (cfg : McpTestConfig) (msg : String)
    (hfail : beh.connectResult = .error msg)
    (hnames : cfg.tests.Pairwise (fun s t => s.name ≠ t.name)) :
    (runTests env beh rE cfg).tests =
      cfg.tests.map (fun t =>
        { name := t.name, passed := false, assertions := []
          error := some ("Server connection error: " ++ msg)
          elapsedMs := 0 }) ∧
    ∀ p, (runTests env { beh with perTest := p } rE cfg).tests =
      (runTests env beh rE cfg).tests := by
  have hmain : (runTests env beh rE cfg).tests = cfg.tests.map (connFailRec msg) := by
    unfold runTests aggregate
    rw [hfail]
    exact connectFailLoop_eq msg cfg.tests [] (by simp) hnames
  refine ⟨hmain, ?_⟩
  intro p
  unfold runTests aggregate
  rw [show ({ beh with perTest := p } : ClientBehavior).connectResult =
        Except.error msg from hfail]

/-- Witness for the amended C2: connect fails on a two-test configuration
with distinct names; both tests are recorded failed with the shared
connection-error message. -/
theorem c2_connect_fail_amended_witness :
    behConnFail.connectResult = .error "spawn bad ENOENT" ∧
    cfgTwo.tests.Pairwise (fun s t => s.name ≠ t.name) ∧
    (runTests envEx behConnFail 0 cfgTwo).tests =
      cfgTwo.tests.map (fun t =>
        { name := t.name, passed := false, assertions := []
          error := some ("Server connection error: " ++ "spawn bad ENOENT")
          elapsedMs := 0 }) :=
  ⟨rfl, by simp [cfgTwo, tDupA1, tB],
    (c2_connect_fail_amended envEx behConnFail 0 cfgTwo "spawn bad ENOENT"
      rfl (by simp [cfgTwo, tDupA1, tB])).1⟩

/-- `runSingleTest` records the test under its declared name on every path. -/
theorem runSingleTest_name (env : JsEnv) (beh : ClientBehavior)
    (t : TestDefinition) : (runSingleTest env beh t).name = t.name := by
  unfold runSingleTest
  split
  · rfl
  · dsimp only
    split <;> rfl

/-- C8 counterexample: with connect failing on a configuration of THREE
declared tests whose first two share a name, the RunResult records only two
TestResults — not one per declared test. -/
theorem c8_counterexample :
    behConnFail.connectResult = .error "spawn bad ENOENT" ∧
    cfgDup3.tests.length = 3 ∧
    (runTests envEx behConnFail 0 cfgDup3).tests.length = 2 ∧
    (runTests envEx behConnFail 0 cfgDup3).tests.map (fun r => r.name) ≠
      cfgDup3.tests.map (fun t => t.name) := by
  exact ⟨rfl, rfl, rfl, by decide⟩

/-- C8 amended: the RunResult's tests carry the declared names in
configuration order — unconditionally when connect succeeds (regardless of
each test's outcome and of which tests errored), and, when connect fails,
provided the declared test names are pairwise distinct. -/
theorem c8_order_amended (env : JsEnv) (beh : ClientBehavior) (rE : Int)
    (cfg : McpTestConfig) :
    (∀ u : Unit, beh.connectResult = .ok u →
      (runTests env beh rE cfg).tests.map (fun r => r.name) =
        cfg.tests.map (fun t => t.name)) ∧
    (∀ msg : String, beh.connectResult = .error msg →
      cfg.tests.Pairwise (fun s t => s.name ≠ t.name) →
      (runTests env beh rE cfg).tests.map (fun r => r.name) =
        cfg.tests.map (fun t => t.name)) := by
  constructor
  · intro u hconn
    unfold runTests aggregate
    rw [hconn]
    dsimp only
    rw [List.map_map]
    simp [Function.comp_def, runSingleTest_name]
  · intro msg hconn hnames
    unfold runTests aggregate connectFailResults
    rw [hconn]
    dsimp only
    rw [connectFailLoop_eq msg cfg.tests [] (by simp) hnames]
    simp [Function.comp_def, connFailRec]

/-- Witness for the amended C8: a successful connect over the two-test
configuration records the two declared names in order. -/
theorem c8_order_amended_witness :
    behOk.connectResult = .ok () ∧
    (runTests envEx behOk 0 cfgTwo).tests.map (fun r => r.name) =
      cfgTwo.tests.map (fun t => t.name) :=
  ⟨rfl, (c8_order_amended envEx behOk 0 cfgTwo).1 () rfl⟩

/-- Counting a predicate and its negation over a result list splits its
length. -/
theorem filter_length_split (l : List TestResult) (p : TestResult → Bool) :
    (l.filter p).length + (l.filter (fun r => !(p r))).length = l.length := by
  induction l with
  | nil => rfl
  | cons x xs ih =>
    by_cases h : p x <;> simp [List.filter_cons, h, ← ih] <;> omega

/-- The `reduce`-style fold of `runTests` is the sum of the mapped values. -/
theorem foldl_add_eq_sum (l : List TestResult) (f : TestResult → Nat) (n : Nat) :
    l.foldl (fun sum r => sum + f r) n = n + (l.map f).sum := by
  induction l generalizing n with
  | nil => simp
  | cons x xs ih =>
    simp only [List.foldl_cons, List.map_cons, List.sum_cons, ih]
    omega

/-- C9: the aggregates of every `runTests` result are consistent —
passed + failed tests = number of recorded tests, total/passed assertion
counts are the sums over the recorded tests, and passed ≤ total. -/
theorem c9_aggregate_invariants (env : JsEnv) (beh : ClientBehavior)
    (rE : Int) (cfg : McpTestConfig) :
    (runTests env beh rE cfg).totalPassed + (runTests env beh rE cfg).totalFailed =
      (runTests env beh rE cfg).tests.length ∧
    (runTests env beh rE cfg).totalAssertions =
      ((runTests env beh rE cfg).tests.map (fun r => r.assertions.length)).sum ∧
    (runTests env beh rE cfg).passedAssertions =
      ((runTests env beh rE cfg).tests.map
        (fun r => (r.assertions.filter (fun a => a.passed)).length)).sum ∧
    (runTests env beh rE cfg).passedAssertions ≤
      (runTests env beh rE cfg).totalAssertions := by
  unfold runTests aggregate
  dsimp only
  refine ⟨filter_length_split _ _, ?_, ?_, ?_⟩
  · rw [foldl_add_eq_sum]
    exact Nat.zero_add _
  · rw [foldl_add_eq_sum]
    exact Nat.zero_add _
  · rw [foldl_add_eq_sum, foldl_add_eq_sum]
    simp only [Nat.zero_add]
    apply List.sum_le_sum
    intro r _
    exact List.length_filter_le _ _

/-- A single raw assertion entry passes the config validator's inner loop iff
its `type` property is a string among the 13 recognized kinds — no other
field is inspected. -/
theorem validateAsserts_single (i j : Nat) (a : JsValue) :
    validateAsserts i j [a] = .ok () ↔
      ∃ s, jsGet a "type" = some (.str s) ∧ s ∈ VALID_ASSERTION_TYPES := by
  simp only [validateAsserts]
  cases hg : jsGet a "type" with
  | none => simp
  | some v =>
    cases v with
    | str s =>
      dsimp only
      by_cases hc : VALID_ASSERTION_TYPES.contains s
      · rw [hc]
        simp only [if_true, validateAsserts]
        constructor
        · intro _
          exact ⟨s, rfl, by simpa using hc⟩
        · intro _
          trivial
      · rw [Bool.eq_false_iff.mpr hc]
        constructor
        · intro h
          simp at h
        · rintro ⟨s', hs', hmem⟩
          obtain rfl : s = s' := by simpa using hs'
          exact absurd
            (show VALID_ASSERTION_TYPES.contains s = true by simpa using hmem)
            hc
    | null => simp
    | bool b => simp
    | num n => simp
    | arr xs => simp
    | obj fs => simp

/-- C10: `validateConfig`'s per-assertion check is exactly membership of the
`type` property in the 13 recognized kinds — no kind-specific field is
inspected — and consequently the concrete configuration whose assertion
entries lack or mistype their kind-specific fields (`error_contains` without
`value`, `output_matches` without `pattern` and with a numeric `pattern`,
`response_time` without `ms`, `output_json_schema` with a string `schema`)
is accepted at load time and reaches the run phase. -/
theorem c10_validate_type_only :
    (∀ (i j : Nat) (a : JsValue),
      validateAsserts i j [a] = .ok () ↔
        ∃ s, jsGet a "type" = some (.str s) ∧ s ∈ VALID_ASSERTION_TYPES) ∧
    validateConfig cfgMissingFields = .ok cfgMissingFields :=
  ⟨validateAsserts_single, rfl⟩

/-- Witness for C10: a recognized-type entry with an unrelated extra field
passes the inner loop, and the under-specified configuration validates. -/
theorem c10_validate_type_only_witness :
    validateAsserts 0 0 [aExType] = .ok () ∧
    validateConfig cfgMissingFields = .ok cfgMissingFields :=
  ⟨(c10_validate_type_only.1 0 0 aExType).mpr ⟨"success", rfl, by decide⟩,
    c10_validate_type_only.2⟩
